import Mathlib

/-!
Verification development for the AI-Chatbot-UI repository.

The TypeScript sources are shallowly embedded as Lean definitions:

* JS `Date` values are epoch milliseconds (`Nat`).
* JSON serialization turns a `Date` into its ISO-8601 string; since that
  rendering is a bijection on instants, the serialized string for instant `t`
  is modelled by the wrapper `DateString` carrying `t` itself.  A JS value
  that is dynamically either a `Date` object or its serialized string form
  (the repository freely mixes the two after `JSON.parse`) is modelled by
  the sum `TimeVal`.
* `localStorage` is a record of optional parsed JSON trees (`LocalStore`);
  `JSON.stringify`/`JSON.parse` round-trips of strings are modelled at the
  level of those trees (serialization maps every `Date` to its string form).
* The single-threaded React store is an explicit state record (`AIState`);
  callbacks read the snapshot they closed over while `setX` updates apply
  to the store in call order, exactly as React batches them.
* Asynchronous effects (network calls, `Math.random`, `Date.now`, id
  generation) are passed in explicitly: the outbound provider request is
  returned as a `GatewayCall` record and the awaited provider response is
  the `AIResponse` argument.
-/

/-- JS `Date`: an instant, as epoch milliseconds. -/
abbrev Date := Nat

/-- The ISO-8601 string rendering of the instant `millis`, as produced by
`JSON.stringify` on a `Date`.  The rendering is injective, so the string is
modelled by the instant it denotes. -/
structure DateString where
  millis : Nat
deriving Repr, DecidableEq

/-- A JS value that holds either a live `Date` object or its serialized
string form (the code mixes the two after `JSON.parse`). -/
inductive TimeVal where
  | date (t : Date)
  | str (s : DateString)
deriving Repr, DecidableEq

namespace TimeVal

/-- Is this a proper `Date` object (rather than a leftover serialized string)? -/
def isDate : TimeVal → Bool
  | .date _ => true
  | .str _ => false

/-- The instant denoted, regardless of representation. -/
def millisOf : TimeVal → Nat
  | .date t => t
  | .str s => s.millis

/-- `JSON.stringify` on a timestamp field: a `Date` becomes its ISO string,
a string stays itself. -/
def serialize : TimeVal → TimeVal
  | .date t => .str ⟨t⟩
  | .str s => .str s

/-- `new Date(x)`: parsing a serialized string (or copying a `Date`) yields
a proper `Date` for the same instant. -/
def newDate : TimeVal → TimeVal
  | .date t => .date t
  | .str s => .date s.millis

end TimeVal

/-- Message role (`'user' | 'assistant' | 'system'`, AIContext.tsx). -/
inductive Role where
  | user
  | assistant
  | system
deriving Repr, DecidableEq

/-- Per-message token usage (`ChatMessage.tokens`, AIContext.tsx). -/
structure TokenUsage where
  prompt : Nat
  completion : Nat
  total : Nat
deriving Repr, DecidableEq

/-- `ProcessedFile.metadata : Record<string, any>` (fileService.ts).  The two
producers are `parseCSV` (headers / row count / column count / first-5-rows
preview / total size) and the `.json` branch (a parsed object with none of
those fields).  Absent fields are `none`, which renders as `undefined`. -/
structure FileMetadata where
  headers : Option (List String) := none
  rows : Option Nat := none
  columns : Option Nat := none
  preview : List (List (String × String)) := []
  totalSize : Option Nat := none
deriving Repr, DecidableEq

/-- `ProcessedFile` (fileService.ts). -/
structure ProcessedFile where
  id : String
  name : String
  type : String
  size : Nat
  content : String
  preview : Option String := none
  metadata : Option FileMetadata := none
  uploadedAt : TimeVal
deriving Repr, DecidableEq

/-- `ChatMessage` (AIContext.tsx). -/
structure ChatMessage where
  id : String
  role : Role
  content : String
  timestamp : TimeVal
  model : Option String := none
  tokens : Option TokenUsage := none
  files : Option (List ProcessedFile) := none
deriving Repr, DecidableEq

/-- `Conversation` (storageService). -/
structure Conversation where
  id : String
  title : String
  messages : List ChatMessage
  createdAt : TimeVal
  updatedAt : TimeVal
  model : Option String := none
  totalTokens : Option Nat := none
deriving Repr, DecidableEq

/-- `PromptTemplate` (AIContext.tsx). -/
structure PromptTemplate where
  id : String
  name : String
  content : String
  category : String
  tags : Option (List String) := none
  createdAt : Option TimeVal := none
  usageCount : Option Nat := none
deriving Repr, DecidableEq

/-- Model pricing (`AIModel.pricing`); JS numbers modelled as rationals. -/
structure Pricing where
  input : ℚ
  output : ℚ
deriving Repr, DecidableEq

/-- `AIModel` (AIContext.tsx). -/
structure AIModel where
  id : String
  name : String
  provider : String
  description : String
  category : Option String := none
  contextLength : Option Nat := none
  pricing : Option Pricing := none
deriving Repr, DecidableEq

/-- `AIParameters` (AIContext.tsx); JS numbers modelled as rationals. -/
structure AIParameters where
  temperature : ℚ
  maxTokens : ℚ
  topP : ℚ
  presencePenalty : ℚ
  frequencyPenalty : ℚ
deriving Repr, DecidableEq

/-- The settings bundle of `AIProvider` (AIContext.tsx). -/
structure Settings where
  autoSave : Bool
  autoTitle : Bool
  showTokenCount : Bool
  enableSound : Bool
deriving Repr, DecidableEq

/-- `AIResponse.usage` (aiService.ts). -/
structure ResponseUsage where
  promptTokens : Nat
  completionTokens : Nat
  totalTokens : Nat
deriving Repr, DecidableEq

/-- `AIResponse` (aiService.ts). -/
structure AIResponse where
  success : Bool
  content : String
  error : Option String := none
  usage : Option ResponseUsage := none
deriving Repr, DecidableEq

/-- The parsed-JSON trees held in `localStorage` under the fixed keys
`ai-interface-conversations` and `ai-interface-templates`; `none` models an
absent key. -/
structure LocalStore where
  conversations : Option (List Conversation) := none
  templates : Option (List PromptTemplate) := none
deriving Repr, DecidableEq

/-- The outbound provider request issued by `aiService.generateResponse`
(its arguments), recorded as the observable network effect. -/
structure GatewayCall where
  messages : List ChatMessage
  model : Option AIModel
  parameters : AIParameters
deriving Repr, DecidableEq

/-- The React store of `AIProvider` (AIContext.tsx), restricted to the state
the conversation manager reads and writes. -/
structure AIState where
  messages : List ChatMessage
  conversations : List Conversation
  currentConversationId : Option String
  currentPrompt : String
  uploadedFiles : List ProcessedFile
  selectedModel : Option AIModel
  parameters : AIParameters
  settings : Settings
  error : Option String
  isLoading : Bool
  isGenerating : Bool
deriving Repr, DecidableEq

namespace FileService

/-- A raw uploaded `File`.  The browser `FileReader` results are carried on
the record: `text` is what `readAsText` yields and `dataUrl` what
`readAsDataURL` yields (file reads are modelled as total). -/
structure UploadFile where
  name : String
  mimeType : String
  size : Nat
  text : String
  dataUrl : String
deriving Repr, DecidableEq

/-- Configuration of `FileService`: the `VITE_ENABLE_FILE_UPLOAD` toggle. -/
structure FileConfig where
  enabled : Bool
deriving Repr, DecidableEq

/-- Fresh values consumed by one `processFile` call: the generated id and
`new Date()`. -/
structure FileFresh where
  id : String
  now : Date
deriving Repr, DecidableEq

/-- `maxFileSize = 10 * 1024 * 1024` (fileService.ts). -/
def maxFileSize : Nat := 10 * 1024 * 1024

/-- `supportedTypes.text` (fileService.ts). -/
def supportedTextTypes : List String := [".txt", ".md", ".json", ".csv", ".log"]

/-- `supportedTypes.document` (fileService.ts). -/
def supportedDocumentTypes : List String := [".pdf", ".doc", ".docx"]

/-- `supportedTypes.image` (fileService.ts). -/
def supportedImageTypes : List String := [".jpg", ".jpeg", ".png", ".gif", ".webp", ".svg"]

/-- `supportedTypes.code` (fileService.ts). -/
def supportedCodeTypes : List String :=
  [".js", ".ts", ".py", ".java", ".cpp", ".html", ".css", ".xml"]

/-- JS `String.prototype.split` on a one-character separator, on the
character list (structural, so it evaluates; `split` never yields an empty
array). -/
def splitOnSep (sep : Char) : List Char → List (List Char)
  | [] => [[]]
  | x :: xs =>
    match splitOnSep sep xs with
    | [] => [[]]
    | y :: ys => if x = sep then [] :: y :: ys else (x :: y) :: ys

/-- `'.' + file.name.split('.').pop()?.toLowerCase()` (fileService.ts).
`split` never yields an empty array, so `pop` is its last element. -/
def fileExtension (name : String) : String :=
  "." ++ String.mk ((((splitOnSep '.' name.data).getLast?).getD []).map Char.toLower)

/-- `isTypeSupported` (fileService.ts): membership in any of the four
category lists. -/
def isTypeSupported (extension : String) : Bool :=
  (supportedTextTypes ++ supportedDocumentTypes ++ supportedImageTypes ++
    supportedCodeTypes).contains extension

/-- `isTextFile` (fileService.ts): text or code extension. -/
def isTextFile (extension : String) : Bool :=
  (supportedTextTypes ++ supportedCodeTypes).contains extension

/-- `isImageFile` (fileService.ts). -/
def isImageFile (extension : String) : Bool :=
  supportedImageTypes.contains extension

/-- `(n / 1024).toFixed(1)` on a byte count: kilobytes with one decimal
digit (floating-point rounding modelled by truncation of tenths; the string
only ever feeds display text). -/
def toFixed1KB (size : Nat) : String :=
  let tenths := size * 10 / 1024
  toString (tenths / 10) ++ "." ++ toString (tenths % 10)

/-- The reasons `processFile` rejects (fileService.ts throws `Error`s with
the corresponding messages). -/
inductive FileError where
  | notEnabled
  | sizeLimit
  | unsupportedType (extension : String)
deriving Repr, DecidableEq

/-- `parseCSV` (fileService.ts): header list, row/column counts, first-5-rows
preview.  Rows are modelled as header/value pairs (the JS `reduce` building
`obj[headers[index]] = value`). -/
def parseCSV (content : String) : FileMetadata :=
  let lines := content.trim.splitOn "\n"
  if lines.length < 2 then { rows := some 0, columns := some 0 }
  else
    let headers := ((lines.headI).splitOn ",").map String.trim
    let rows := (lines.drop 1).map fun line =>
      headers.zip ((line.splitOn ",").map String.trim)
    { headers := some headers
      rows := some rows.length
      columns := some headers.length
      preview := rows.take 5
      totalSize := some content.length }

/-- `processImage` (fileService.ts): a descriptive string for the image. -/
def processImage (file : UploadFile) : String :=
  let name := file.name
  let kb := toFixed1KB file.size
  let ty := file.mimeType
  s!"Image file: {name}, Size: {kb}KB, Type: {ty}"

/-- `processFile` (fileService.ts): enablement, size and extension
validation, then per-type content extraction.  The `.json` metadata branch
stores `JSON.parse(content)` when parseable; that value (an object with no
CSV fields) is modelled as an empty `FileMetadata` — no claim inspects it.
Note `.json`/`.csv` are also text extensions, so the `isTextFile` branch
shadows their dedicated branches, exactly as in the source. -/
def processFile (cfg : FileConfig) (fresh : FileFresh) (file : UploadFile) :
    Except FileError ProcessedFile :=
  if ¬cfg.enabled then .error .notEnabled
  else if maxFileSize < file.size then .error .sizeLimit
  else
    let extension := fileExtension file.name
    if ¬isTypeSupported extension then .error (.unsupportedType extension)
    else
      let base : ProcessedFile :=
        { id := fresh.id
          name := file.name
          type := file.mimeType
          size := file.size
          content := ""
          uploadedAt := .date fresh.now }
      if isTextFile extension then .ok { base with content := file.text }
      else if isImageFile extension then
        .ok { base with content := processImage file, preview := some file.dataUrl }
      else if extension = ".json" then
        .ok { base with content := file.text, metadata := some {} }
      else if extension = ".csv" then
        .ok { base with content := file.text, metadata := some (parseCSV file.text) }
      else
        .ok { base with content :=
          "[" ++ (if file.mimeType = "" then "Unknown" else file.mimeType) ++
            " file: " ++ file.name ++ "]" }

/-- `processMultipleFiles` (fileService.ts): sequential loop, each file
processed independently; a failure is logged and skipped.  `fresh i` supplies
the id/timestamp generated for the `i`-th file. -/
def processMultipleFilesFrom (cfg : FileConfig) (fresh : Nat → FileFresh) :
    Nat → List UploadFile → List ProcessedFile
  | _, [] => []
  | i, file :: rest =>
    match processFile cfg (fresh i) file with
    | .ok processed => processed :: processMultipleFilesFrom cfg fresh (i + 1) rest
    | .error _ => processMultipleFilesFrom cfg fresh (i + 1) rest

/-- `processMultipleFiles` entry point (index starts at the head of the
batch). -/
def processMultipleFiles (cfg : FileConfig) (fresh : Nat → FileFresh)
    (files : List UploadFile) : List ProcessedFile :=
  processMultipleFilesFrom cfg fresh 0 files

/-- Render an optional number the way JS string interpolation renders a
possibly-`undefined` field. -/
def showOptNat : Option Nat → String
  | some n => toString n
  | none => "undefined"

/-- `meta.headers?.join(', ')` rendered in a template literal. -/
def showHeaders : Option (List String) → String
  | some hs => String.intercalate ", " hs
  | none => "undefined"

/-- The per-file block accumulated by `generatePromptContext` (fileService.ts). -/
def promptContextBlock (index : Nat) (file : ProcessedFile) : String :=
  let n := index + 1
  let name := file.name
  let ty := file.type
  let kb := toFixed1KB file.size
  let head := s!"**File {n}: {name}**\n- Type: {ty}\n- Size: {kb}KB\n"
  let csvPart :=
    match file.metadata with
    | some meta =>
      if file.name.endsWith ".csv" then
        let rows := showOptNat meta.rows
        let cols := showOptNat meta.columns
        let hdrs := showHeaders meta.headers
        s!"- CSV Data: {rows} rows, {cols} columns\n- Headers: {hdrs}\n"
      else ""
    | none => ""
  let contentPart :=
    if file.content.length < 2000 then
      "- Content:\n```\n" ++ file.content ++ "\n```\n\n"
    else
      "- Content Preview:\n```\n" ++ (file.content.take 1000) ++ "...\n```\n\n"
  head ++ csvPart ++ contentPart

/-- `generatePromptContext` (fileService.ts): the file-context block
prepended to the outbound prompt when attachments are staged. -/
def generatePromptContext (files : List ProcessedFile) : String :=
  if files.isEmpty then ""
  else
    let n := files.length
    let plural := if 1 < files.length then "s" else ""
    let header := s!"I have {n} file{plural} to analyze:\n\n"
    let blocks := String.join ((files.enum.map fun p => promptContextBlock p.1 p.2))
    header ++ blocks ++
      "Please analyze these files and provide insights or answer any questions about them."

end FileService

namespace AIService

/-- The random draws consumed by one `generateMockResponse` call, in source
order: `Math.floor(Math.random() * responses.length)` picks the canned
response, `Math.floor(Math.random() * 200)` feeds `completionTokens`, and an
independent `Math.floor(Math.random() * 200)` feeds `totalTokens`. -/
structure MockRand where
  choice : Fin 3
  completionDraw : Fin 200
  totalDraw : Fin 200
deriving Repr, DecidableEq

/-- `prompt.slice(0, k)` followed by the `prompt.length > k ? '...' : ''`
marker, as interpolated by the canned responses. -/
def promptSnippet (prompt : String) (k : Nat) : String :=
  prompt.take k ++ (if k < prompt.length then "..." else "")

/-- The three canned strings of `generateMockResponse` (aiService.ts). -/
def mockResponses (model : AIModel) (parameters : AIParameters) (prompt : String) :
    List String :=
  let name := model.name
  let temp := toString parameters.temperature
  let maxTok := toString parameters.maxTokens
  let p100 := promptSnippet prompt 100
  let p80 := promptSnippet prompt 80
  let p60 := promptSnippet prompt 60
  [ "Using " ++ name ++ " with temperature " ++ temp ++
      ": This is a simulated response demonstrating the enhanced AI interface capabilities. \n\nYour query: \"" ++
      p100 ++
      "\"\n\nEnhanced features now include:\n• Real AI API integration support for multiple providers\n• Persistent conversation storage\n• Advanced export/import capabilities\n• File upload and processing\n• Conversation management\n• Token usage tracking\n• Error handling and recovery\n\nThe interface maintains backward compatibility while adding professional-grade features for production use.",
    "Response from " ++ name ++ ": I've processed your request with the following enhanced capabilities:\n\n**Query Analysis**: \"" ++
      p80 ++ "\"\n**Model Settings**: Temperature: " ++ temp ++ ", Max Tokens: " ++ maxTok ++
      "\n\n**New Features Available**:\n1. **Multi-Provider Support** - OpenAI, Anthropic, Google, Hugging Face, Cohere, Ollama, Groq\n2. **Persistent Storage** - Conversations and templates are now saved automatically\n3. **Advanced Export** - Multiple formats including JSON, Markdown, and PDF\n4. **File Processing** - Upload and analyze documents, images, and data files\n5. **Conversation Management** - Create, organize, and search through chat history\n6. **Token Tracking** - Monitor usage and costs across different providers\n\nThe enhanced interface is production-ready with enterprise-grade features while maintaining the intuitive user experience.",
    name ++ " Analysis Complete:\n\n**Input Processing**: Successfully analyzed your prompt about \"" ++
      p60 ++ "\"\n**Configuration**: Using optimized parameters (T: " ++ temp ++ ", Max: " ++ maxTok ++
      ")\n\n**System Enhancements**:\n✅ **API Integration** - Multiple AI providers configured\n✅ **Data Persistence** - LocalStorage + IndexedDB support  \n✅ **Export System** - Comprehensive conversation export\n✅ **File Handling** - Upload and process various file types\n✅ **Search & Filter** - Advanced conversation management\n✅ **Performance** - Optimized rendering and caching\n✅ **Accessibility** - WCAG compliant interface\n✅ **Security** - Secure API key management\n\nThis mock response demonstrates the interface's ability to handle complex interactions while providing detailed feedback and maintaining context throughout the conversation." ]

/-- `generateMockResponse` (aiService.ts lines 383-452): always succeeds;
`promptTokens = Math.floor(prompt.length / 4)`,
`completionTokens = Math.floor(Math.random() * 200) + 50`, and
`totalTokens = Math.floor(prompt.length / 4) + Math.floor(Math.random() * 200) + 50`
with an *independent* second random draw.  The simulated latency delay is a
pure timing effect and is not modelled. -/
def generateMockResponse (rand : MockRand) (messages : List ChatMessage)
    (model : AIModel) (parameters : AIParameters) : AIResponse :=
  let prompt := ((messages.getLast?).map ChatMessage.content).getD ""
  { success := true
    content := (mockResponses model parameters prompt).getD rand.choice ""
    usage := some
      { promptTokens := prompt.length / 4
        completionTokens := rand.completionDraw + 50
        totalTokens := prompt.length / 4 + rand.totalDraw + 50 } }

/-- `generateResponse` (aiService.ts lines 18-54): with the live-API toggle
(`VITE_ENABLE_REAL_API`) off, every call falls through to the mock
generator.  The real-provider branches each perform one network call whose
outcome is the oracle `net`. -/
def generateResponse (enableRealAPI : Bool) (rand : MockRand) (net : AIResponse)
    (messages : List ChatMessage) (model : AIModel) (parameters : AIParameters) :
    AIResponse :=
  if ¬enableRealAPI then generateMockResponse rand messages model parameters
  else net

end AIService

namespace StorageService

/-- `JSON.stringify` on a `ProcessedFile`: the `uploadedAt` timestamp
serializes to its string form. -/
def serializeFile (f : ProcessedFile) : ProcessedFile :=
  { f with uploadedAt := f.uploadedAt.serialize }

/-- `JSON.stringify` on a `ChatMessage`: the timestamp and any nested file
timestamps serialize to their string forms. -/
def serializeMessage (m : ChatMessage) : ChatMessage :=
  { m with
      timestamp := m.timestamp.serialize
      files := m.files.map (List.map serializeFile) }

/-- `JSON.stringify` on a `Conversation`. -/
def serializeConversation (c : Conversation) : Conversation :=
  { c with
      createdAt := c.createdAt.serialize
      updatedAt := c.updatedAt.serialize
      messages := c.messages.map serializeMessage }

/-- `JSON.stringify` on a `PromptTemplate`. -/
def serializeTemplate (t : PromptTemplate) : PromptTemplate :=
  { t with createdAt := t.createdAt.map TimeVal.serialize }

/-- The per-message revival done by `getConversations` (storageService):
`{ ...msg, timestamp: new Date(msg.timestamp) }` — nested file records are
spread through untouched. -/
def reviveMessage (m : ChatMessage) : ChatMessage :=
  { m with timestamp := m.timestamp.newDate }

/-- The per-conversation revival done by `getConversations`:
`createdAt`/`updatedAt` and every message timestamp become `Date`s. -/
def reviveConversation (c : Conversation) : Conversation :=
  { c with
      createdAt := c.createdAt.newDate
      updatedAt := c.updatedAt.newDate
      messages := c.messages.map reviveMessage }

/-- `getConversations` (storageService lines 52-73): read the stored JSON
tree and revive all conversation and message timestamps; `[]` when storage
is disabled or the key is absent. -/
def getConversations (enabled : Bool) (st : LocalStore) : List Conversation :=
  if ¬enabled then []
  else
    match st.conversations with
    | none => []
    | some stored => stored.map reviveConversation

/-- `conversations.findIndex(c => c.id === conversation.id)` followed by
either an in-place replacement of that first match or an `unshift`, written
as one recursion: `upsertFirst` returns the list with the first id match
replaced, or `none` when there is no match. -/
def upsertFirst (c : Conversation) : List Conversation → Option (List Conversation)
  | [] => none
  | x :: xs =>
    if x.id == c.id then some (c :: xs)
    else (upsertFirst c xs).map (x :: ·)

/-- `saveConversation` (storageService lines 26-50): replace the first
stored conversation with the same id (restamping `updatedAt` with
`new Date()`), otherwise `unshift` the new record (its `createdAt` is a
`Date` object, hence truthy, so `conversation.createdAt || new Date()`
keeps it); then `JSON.stringify` the list back into storage. -/
def saveConversation (enabled : Bool) (now : Date) (conversation : Conversation)
    (st : LocalStore) : LocalStore :=
  if ¬enabled then st
  else
    let conversations := getConversations enabled st
    let stamped := { conversation with updatedAt := TimeVal.date now }
    let updated := (upsertFirst stamped conversations).getD (stamped :: conversations)
    { st with conversations := some (updated.map serializeConversation) }

/-- `getConversation` (storageService line 86): first stored conversation
with the given id. -/
def getConversation (enabled : Bool) (st : LocalStore) (id : String) :
    Option Conversation :=
  (getConversations enabled st).find? (fun c => c.id == id)

/-- `deleteConversation` (storageService lines 75-84). -/
def deleteConversation (enabled : Bool) (st : LocalStore) (id : String) : LocalStore :=
  if ¬enabled then st
  else
    let remaining := (getConversations enabled st).filter (fun c => ¬(c.id == id))
    { st with conversations := some (remaining.map serializeConversation) }

/-- `getTemplates` (storageService lines 110-120): the parsed JSON tree is
returned as-is — no timestamp revival happens on this read. -/
def getTemplates (enabled : Bool) (st : LocalStore) : List PromptTemplate :=
  if ¬enabled then []
  else
    match st.templates with
    | none => []
    | some stored => stored

/-- `templates.findIndex` + replace-or-`push` of `saveTemplate`. -/
def upsertTemplateFirst (t : PromptTemplate) :
    List PromptTemplate → Option (List PromptTemplate)
  | [] => none
  | x :: xs =>
    if x.id == t.id then some (t :: xs)
    else (upsertTemplateFirst t xs).map (x :: ·)

/-- `saveTemplate` (storageService lines 91-108): replace the first stored
template with the same id or `push` at the end, then `JSON.stringify`. -/
def saveTemplate (enabled : Bool) (template : PromptTemplate) (st : LocalStore) :
    LocalStore :=
  if ¬enabled then st
  else
    let templates := getTemplates enabled st
    let updated := (upsertTemplateFirst template templates).getD (templates ++ [template])
    { st with templates := some (updated.map serializeTemplate) }

/-- `exportConversation(id, 'json')` (storageService lines 196-213):
`JSON.stringify` of the revived conversation, modelled by the JSON tree the
exported text parses back to; `none` models the `'Conversation not found'`
throw. -/
def exportConversationJson (enabled : Bool) (st : LocalStore) (id : String) :
    Option Conversation :=
  (getConversation enabled st id).map serializeConversation

/-- The per-entry normalization of `importConversations` (storageService
lines 268-277): falsy id/title fall back to a generated id or the
placeholder title, timestamps are re-parsed with `new Date`, messages are
taken verbatim from the parsed JSON (their timestamps stay serialized). -/
def importConv (genId : String) (conv : Conversation) : Conversation :=
  { id := if conv.id == "" then genId else conv.id
    title := if conv.title == "" then "Imported Conversation" else conv.title
    messages := conv.messages
    createdAt := conv.createdAt.newDate
    updatedAt := conv.updatedAt.newDate
    model := conv.model
    totalTokens := conv.totalTokens }

/-- `importConversations` (storageService lines 262-289): each parsed
conversation is normalized and saved in order.  `data` is the parsed JSON
tree (already wrapped in an array when the text held a single object). -/
def importConversations (enabled : Bool) (now : Date) (genId : String)
    (data : List Conversation) (st : LocalStore) : LocalStore :=
  data.foldl (fun acc conv => saveConversation enabled now (importConv genId conv) acc) st

end StorageService

/-- JS `String.prototype.trim`: strip whitespace from both ends.  (Modelled
on the character list so that it evaluates by structural recursion.) -/
def jsTrim (s : String) : String :=
  String.mk (((s.data.dropWhile Char.isWhitespace).reverse.dropWhile
    Char.isWhitespace).reverse)

namespace AIContext

/-- The `gpt-3.5-turbo` entry of `mockModels` (AIContext.tsx lines 164-171). -/
def gpt35Turbo : AIModel :=
  { id := "gpt-3.5-turbo"
    name := "GPT-3.5 Turbo"
    provider := "OpenAI"
    description := "Fast and efficient for most tasks"
    category := some "text"
    contextLength := some 16385
    pricing := some { input := 0.001, output := 0.002 } }

/-- `defaultParameters` (AIContext.tsx lines 505-511). -/
def defaultParameters : AIParameters :=
  { temperature := 0.7
    maxTokens := 2048
    topP := 1
    presencePenalty := 0
    frequencyPenalty := 0 }

/-- `Array.prototype.findLastIndex`: index of the last element satisfying
the predicate. -/
def findLastIndex (p : α → Bool) : List α → Option Nat
  | [] => none
  | x :: xs =>
    match findLastIndex p xs with
    | some i => some (i + 1)
    | none => if p x then some 0 else none

/-- The store effect of one `addMessage(message)` call (AIContext.tsx lines
611-625), as seen from a callback whose closure captured `closureFiles` as
`uploadedFiles`: the appended message's `files` field is overwritten with a
copy of that captured list, and the staged list is cleared when it was
non-empty. -/
def addMessage (closureFiles : List ProcessedFile) (newId : String) (now : Date)
    (role : Role) (content : String) (model : Option String)
    (tokens : Option TokenUsage) (s : AIState) : AIState :=
  let newMessage : ChatMessage :=
    { id := newId
      role := role
      content := content
      timestamp := .date now
      model := model
      tokens := tokens
      files := if 0 < closureFiles.length then some closureFiles else none }
  { s with
      messages := s.messages ++ [newMessage]
      uploadedFiles := if 0 < closureFiles.length then [] else s.uploadedFiles }

/-- The fresh ids and `new Date()` values one `sendMessage` run can consume,
in order of use. -/
structure SendFresh where
  userMsgId : String
  userMsgTime : Date
  convId : String
  convTime : Date
  tempTime : Date
  asstMsgId : String
  asstMsgTime : Date
deriving Repr, DecidableEq

/-- `createConversation()` (AIContext.tsx lines 680-696): prepend a fresh
`'New Conversation'`, activate it, and reset the message and staged-file
lists. -/
def createConversation (convId : String) (now : Date) (s : AIState) : AIState :=
  let conversation : Conversation :=
    { id := convId
      title := "New Conversation"
      messages := []
      createdAt := .date now
      updatedAt := .date now }
  { s with
      conversations := conversation :: s.conversations
      currentConversationId := some convId
      messages := []
      uploadedFiles := [] }

/-- `response.usage` translated into the appended message's `tokens` field
(AIContext.tsx lines 663-667 and 905-910). -/
def usageToTokens (usage : Option ResponseUsage) : Option TokenUsage :=
  usage.map fun u =>
    { prompt := u.promptTokens, completion := u.completionTokens, total := u.totalTokens }

/-- `sendMessage()` (AIContext.tsx lines 852-928).  All reads inside the
callback see the entry snapshot `s` (its React closure), while each `setX`
applies to the store in call order; `resp` is the awaited
`aiService.generateResponse` outcome and the returned `GatewayCall` records
the arguments of that outbound call (`none` when validation blocked it). -/
def sendMessage (fresh : SendFresh) (resp : AIResponse) (s : AIState) :
    AIState × Option GatewayCall :=
  if jsTrim s.currentPrompt == "" ∧ s.uploadedFiles.length = 0 then
    ({ s with error := some "Please enter a message or upload files" }, none)
  else
    match s.selectedModel with
    | none => ({ s with error := some "Please select a model" }, none)
    | some model =>
      let messageContent :=
        if 0 < s.uploadedFiles.length then
          FileService.generatePromptContext s.uploadedFiles ++
            (if ¬(s.currentPrompt == "") then "\n\nUser Question: " ++ s.currentPrompt
             else "")
        else s.currentPrompt
      let s1 := addMessage s.uploadedFiles fresh.userMsgId fresh.userMsgTime
        .user s.currentPrompt (some model.name) none s
      let s2 := { s1 with
        currentPrompt := ""
        isLoading := true
        isGenerating := true
        error := none }
      let s3 :=
        if s.currentConversationId = none then
          createConversation fresh.convId fresh.convTime s2
        else s2
      let conversationMessages := s.messages ++
        [{ id := "temp", role := .user, content := messageContent,
           timestamp := .date fresh.tempTime }]
      let call : GatewayCall :=
        { messages := conversationMessages, model := some model, parameters := s.parameters }
      let s4 :=
        if resp.success then
          addMessage s.uploadedFiles fresh.asstMsgId fresh.asstMsgTime
            .assistant resp.content (some model.name) (usageToTokens resp.usage) s3
        else
          { s3 with error := some (resp.error.getD "Failed to generate response") }
      ({ s4 with isLoading := false, isGenerating := false }, some call)

/-- Fresh values one `regenerateLastMessage` run can consume. -/
structure RegenFresh where
  msgId : String
  msgTime : Date
deriving Repr, DecidableEq

/-- `regenerateLastMessage()` (AIContext.tsx lines 643-677): no-op below two
messages or without an assistant message; otherwise truncate at the last
assistant message, re-invoke the gateway with the truncated history
(`selectedModel!` is forwarded as-is), and append the regenerated assistant
message on success or set an error on failure. -/
def regenerateLastMessage (fresh : RegenFresh) (resp : AIResponse) (s : AIState) :
    AIState × Option GatewayCall :=
  if s.messages.length < 2 then (s, none)
  else
    match findLastIndex (fun msg => msg.role == Role.assistant) s.messages with
    | none => (s, none)
    | some lastAssistantIndex =>
      let messagesWithoutLast := s.messages.take lastAssistantIndex
      let s1 := { s with messages := messagesWithoutLast, isGenerating := true }
      let call : GatewayCall :=
        { messages := messagesWithoutLast, model := s.selectedModel,
          parameters := s.parameters }
      let s2 :=
        if resp.success then
          addMessage s.uploadedFiles fresh.msgId fresh.msgTime .assistant resp.content
            (s.selectedModel.map AIModel.name) (usageToTokens resp.usage) s1
        else
          { s1 with error := some (resp.error.getD "Failed to regenerate response") }
      ({ s2 with isGenerating := false }, some call)

/-- The `updatedConversation` record built by `saveCurrentConversation`
(AIContext.tsx lines 712-727): messages, `updatedAt`, model and token total
refreshed, and the auto-derived title when auto-title applies. -/
def updatedConversationOf (now : Date) (s : AIState) (conversation : Conversation) :
    Conversation :=
  let base : Conversation :=
    { conversation with
        messages := s.messages
        updatedAt := .date now
        model := s.selectedModel.map AIModel.name
        totalTokens := some (s.messages.foldl
          (fun total msg => total + ((msg.tokens.map TokenUsage.total).getD 0)) 0) }
  if s.settings.autoTitle ∧ conversation.title == "New Conversation" ∧
      2 ≤ s.messages.length then
    match s.messages.find? (fun m => m.role == Role.user) with
    | some firstUserMessage =>
      { base with title := firstUserMessage.content.take 50 ++
          (if 50 < firstUserMessage.content.length then "..." else "") }
    | none => base
  else base

/-- `saveCurrentConversation()` (AIContext.tsx lines 707-732): build the
updated record and mirror it into the conversations list and the persistent
store. -/
def saveCurrentConversation (enabled : Bool) (now : Date) (s : AIState)
    (st : LocalStore) : AIState × LocalStore :=
  match s.currentConversationId with
  | none => (s, st)
  | some cid =>
    if s.messages.length = 0 then (s, st)
    else
      match s.conversations.find? (fun c => c.id == cid) with
      | none => (s, st)
      | some conversation =>
        let updatedConversation := updatedConversationOf now s conversation
        ({ s with conversations := (s.conversations.map
            (fun c => if c.id == cid then updatedConversation else c)) },
         StorageService.saveConversation enabled now updatedConversation st)

/-- `renameConversation(id, title)` (AIContext.tsx lines 745-754) as it acts
on the conversations list mirrored to storage: restamp the matching entry's
title and `updatedAt`, and re-save the (pre-update) record under the new
title — `saveConversation` restamps `updatedAt` again. -/
def renameConversation (enabled : Bool) (now : Date) (id : String) (title : String)
    (s : AIState) (st : LocalStore) : AIState × LocalStore :=
  let s' := { s with conversations := (s.conversations.map
    (fun c => if c.id == id then { c with title := title, updatedAt := .date now } else c)) }
  match s.conversations.find? (fun c => c.id == id) with
  | none => (s', st)
  | some conversation =>
    (s', StorageService.saveConversation enabled now
      { conversation with title := title, updatedAt := .date now } st)

end AIContext

/-- The store operations of the claimed `updatedAt`-monotonicity trace:
persisting a conversation (`saveCurrentConversation` and the auto-save tick
both end in `storageService.saveConversation`) and renaming one
(`renameConversation`, acting on the conversations list mirrored to the
store). -/
inductive StoreOp where
  | save (c : Conversation)
  | rename (id : String) (title : String)
deriving Repr, DecidableEq

/-- One store operation executed at clock value `now`. -/
def applyOp (enabled : Bool) (now : Date) : StoreOp → LocalStore → LocalStore
  | .save c, st => StorageService.saveConversation enabled now c st
  | .rename id title, st =>
    match (StorageService.getConversations enabled st).find? (fun c => c.id == id) with
    | none => st
    | some conversation =>
      StorageService.saveConversation enabled now
        { conversation with title := title, updatedAt := .date now } st

/-- Execute a timestamped trace of store operations in order. -/
def runOps (enabled : Bool) : List (Date × StoreOp) → LocalStore → LocalStore
  | [], st => st
  | (t, op) :: rest, st => runOps enabled rest (applyOp enabled t op st)

/-- The `updatedAt` instant currently recorded for conversation `id`. -/
def updatedAtOf (enabled : Bool) (st : LocalStore) (id : String) : Option Nat :=
  (StorageService.getConversation enabled st id).map fun c => c.updatedAt.millisOf

/-- A browser profile before the app ever wrote to `localStorage`. -/
def emptyStore : LocalStore := {}

/-- The observable identity of a message for the export/import round-trip:
role, content, and the instant its timestamp denotes (in either
representation). -/
def msgSig (m : ChatMessage) : Role × String × Nat :=
  (m.role, m.content, m.timestamp.millisOf)

/-- All conversations currently readable from the store carry an
`updatedAt` no later than `T`. -/
def storeBound (enabled : Bool) (st : LocalStore) (T : Nat) : Prop :=
  ∀ c ∈ StorageService.getConversations enabled st, c.updatedAt.millisOf ≤ T

@[simp] theorem TimeVal.millisOf_serialize (x : TimeVal) :
    x.serialize.millisOf = x.millisOf := by
  cases x <;> rfl

@[simp] theorem TimeVal.serialize_serialize (x : TimeVal) :
    x.serialize.serialize = x.serialize := by
  cases x <;> rfl

@[simp] theorem TimeVal.newDate_serialize (x : TimeVal) :
    x.serialize.newDate = .date x.millisOf := by
  cases x <;> rfl

@[simp] theorem TimeVal.millisOf_newDate (x : TimeVal) :
    x.newDate.millisOf = x.millisOf := by
  cases x <;> rfl

@[simp] theorem TimeVal.isDate_newDate (x : TimeVal) : x.newDate.isDate = true := by
  cases x <;> rfl

set_option maxRecDepth 10000

/-- C1: with the live-API toggle off, the mock response for the single user
message "Hello" is successful with non-empty content, but its usage object
violates `totalTokens = promptTokens + completionTokens`: the code draws the
random completion count twice independently (here 50 into
`completionTokens` but 51 into `totalTokens`, on top of
`promptTokens = floor(5 / 4) = 1`). -/
theorem generateResponse_mock_totalTokens_mismatch :
    (AIService.generateResponse false ⟨0, 0, 1⟩ { success := false, content := "" }
        [{ id := "m1", role := .user, content := "Hello", timestamp := .date 1000 }]
        AIContext.gpt35Turbo AIContext.defaultParameters).success = true ∧
      (AIService.generateResponse false ⟨0, 0, 1⟩ { success := false, content := "" }
        [{ id := "m1", role := .user, content := "Hello", timestamp := .date 1000 }]
        AIContext.gpt35Turbo AIContext.defaultParameters).content ≠ "" ∧
      (AIService.generateResponse false ⟨0, 0, 1⟩ { success := false, content := "" }
        [{ id := "m1", role := .user, content := "Hello", timestamp := .date 1000 }]
        AIContext.gpt35Turbo AIContext.defaultParameters).usage =
        some { promptTokens := 1, completionTokens := 50, totalTokens := 52 } ∧
      ¬(52 = 1 + 50) := by
  decide

/-- C3: if no model is selected, or the prompt is whitespace-only with no
staged attachment, `sendMessage` only sets a user-visible validation error:
the returned state differs from the input state in the `error` field alone
(messages, staged files, input buffer and active conversation are untouched)
and no gateway call is issued. -/
theorem sendMessage_validation_no_state_change (fresh : AIContext.SendFresh)
    (resp : AIResponse) (s : AIState)
    (h : s.selectedModel = none ∨ (jsTrim s.currentPrompt = "" ∧ s.uploadedFiles = [])) :
    (AIContext.sendMessage fresh resp s).2 = none ∧
      ∃ msg, (AIContext.sendMessage fresh resp s).1 = { s with error := some msg } := by
  unfold AIContext.sendMessage
  by_cases hcond : (jsTrim s.currentPrompt == "") = true ∧ s.uploadedFiles.length = 0
  · rw [if_pos hcond]
    exact ⟨rfl, _, rfl⟩
  · rw [if_neg hcond]
    rcases h with hm | ⟨hp, hf⟩
    · rw [hm]
      exact ⟨rfl, _, rfl⟩
    · exact absurd ⟨by simp [hp], by simp [hf]⟩ hcond

/-- C3 witness: a concrete state with a model selected but a whitespace-only
prompt and no staged files is rejected with only the error field set. -/
theorem sendMessage_validation_no_state_change_witness :
    ∃ s : AIState,
      (s.selectedModel = none ∨ (jsTrim s.currentPrompt = "" ∧ s.uploadedFiles = [])) ∧
      ((AIContext.sendMessage
          ⟨"u1", 1, "c1", 2, 3, "a1", 4⟩ { success := true, content := "ok" } s).2 = none ∧
        ∃ msg, (AIContext.sendMessage
          ⟨"u1", 1, "c1", 2, 3, "a1", 4⟩ { success := true, content := "ok" } s).1 =
            { s with error := some msg }) := by
  refine ⟨{ messages := [], conversations := [], currentConversationId := none,
            currentPrompt := "   ", uploadedFiles := [],
            selectedModel := some AIContext.gpt35Turbo,
            parameters := AIContext.defaultParameters,
            settings := { autoSave := true, autoTitle := true,
                          showTokenCount := true, enableSound := false },
            error := none, isLoading := false, isGenerating := false }, ?_, ?_⟩
  · exact Or.inr ⟨by decide, rfl⟩
  · exact sendMessage_validation_no_state_change _ _ _ (Or.inr ⟨by decide, rfl⟩)

/-- C5: the templates read of the Persistence Adapter does not reconstruct
timestamps: a template saved with a proper `Date` comes back from
`getTemplates` with its `createdAt` still in serialized string form (the
conversations read does revive, the templates read returns the parsed JSON
verbatim). -/
theorem getTemplates_returns_serialized_timestamp :
    ((StorageService.getTemplates true (StorageService.saveTemplate true
        { id := "t1", name := "Starter", content := "body", category := "General",
          createdAt := some (.date 1700000000000) }
        emptyStore)).map fun t => t.createdAt) =
        [some (.str ⟨1700000000000⟩)] ∧
      ((StorageService.getTemplates true (StorageService.saveTemplate true
        { id := "t1", name := "Starter", content := "body", category := "General",
          createdAt := some (.date 1700000000000) }
        emptyStore)).map fun t => t.createdAt.map TimeVal.isDate) =
        [some false] := by
  exact ⟨rfl, rfl⟩

/-- C8: with uploads enabled, a file of exactly the 10 MiB ceiling (and a
supported extension) is accepted; a file even one byte over the ceiling is
rejected with the size-limit error; and a file within the ceiling whose
extension is outside the four declared categories is rejected with the
unsupported-type error. -/
theorem processFile_size_and_type_boundaries (cfg : FileService.FileConfig)
    (fresh : FileService.FileFresh) (file : FileService.UploadFile)
    (hen : cfg.enabled = true) :
    (file.size = FileService.maxFileSize →
      FileService.isTypeSupported (FileService.fileExtension file.name) = true →
      ∃ pf, FileService.processFile cfg fresh file = .ok pf) ∧
    (FileService.maxFileSize < file.size →
      FileService.processFile cfg fresh file = .error .sizeLimit) ∧
    (file.size ≤ FileService.maxFileSize →
      FileService.isTypeSupported (FileService.fileExtension file.name) = false →
      FileService.processFile cfg fresh file =
        .error (.unsupportedType (FileService.fileExtension file.name))) := by
  refine ⟨?_, ?_, ?_⟩
  · intro hsz hsup
    unfold FileService.processFile
    simp only [hen, hsz, lt_irrefl, hsup, not_true, not_false_iff, if_false, if_true,
      Bool.true_eq_false, ite_false, ite_true]
    split
    · exact ⟨_, rfl⟩
    · split
      · exact ⟨_, rfl⟩
      · split
        · exact ⟨_, rfl⟩
        · split
          · exact ⟨_, rfl⟩
          · exact ⟨_, rfl⟩
  · intro hsz
    unfold FileService.processFile
    simp [hen, hsz]
  · intro hsz hsup
    unfold FileService.processFile
    simp [hen, Nat.not_lt.mpr hsz, hsup]

/-- C8 witness: a supported `.txt` file of exactly 10485760 bytes is
accepted, a 10485761-byte file is rejected for size, and a 100-byte `.exe`
file is rejected as unsupported. -/
theorem processFile_size_and_type_boundaries_witness :
    ((FileService.FileConfig.mk true).enabled = true) ∧
      (∃ pf, FileService.processFile ⟨true⟩ ⟨"f1", 10⟩
        ⟨"notes.txt", "text/plain", 10485760, "hi", ""⟩ = .ok pf) ∧
      (FileService.processFile ⟨true⟩ ⟨"f2", 11⟩
        ⟨"notes.txt", "text/plain", 10485761, "hi", ""⟩ = .error .sizeLimit) ∧
      (FileService.processFile ⟨true⟩ ⟨"f3", 12⟩
        ⟨"tool.exe", "application/octet-stream", 100, "", ""⟩ =
          .error (.unsupportedType ".exe")) := by
  refine ⟨rfl, ?_, ?_, ?_⟩
  · exact (processFile_size_and_type_boundaries ⟨true⟩ ⟨"f1", 10⟩
      ⟨"notes.txt", "text/plain", 10485760, "hi", ""⟩ rfl).1 rfl (by decide)
  · exact (processFile_size_and_type_boundaries ⟨true⟩ ⟨"f2", 11⟩
      ⟨"notes.txt", "text/plain", 10485761, "hi", ""⟩ rfl).2.1 (by decide)
  · exact (processFile_size_and_type_boundaries ⟨true⟩ ⟨"f3", 12⟩
      ⟨"tool.exe", "application/octet-stream", 100, "", ""⟩ rfl).2.2 (by decide) (by decide)

theorem processMultipleFilesFrom_eq_filterMap (cfg : FileService.FileConfig)
    (fresh : Nat → FileService.FileFresh) :
    ∀ (files : List FileService.UploadFile) (i : Nat),
      FileService.processMultipleFilesFrom cfg fresh i files =
        (files.enumFrom i).filterMap
          (fun p => (FileService.processFile cfg (fresh p.1) p.2).toOption)
  | [], _ => rfl
  | file :: rest, i => by
    unfold FileService.processMultipleFilesFrom
    rw [List.enumFrom, List.filterMap_cons]
    cases h : FileService.processFile cfg (fresh i) file with
    | ok pf => simp [h, Except.toOption, processMultipleFilesFrom_eq_filterMap cfg fresh rest (i + 1)]
    | error e => simp [h, Except.toOption, processMultipleFilesFrom_eq_filterMap cfg fresh rest (i + 1)]

theorem find?_map_upd (cid : String) (u : Conversation) (hu : (u.id == cid) = true) :
    ∀ (l : List Conversation) (conv : Conversation),
      l.find? (fun c => c.id == cid) = some conv →
      (l.map fun c => if c.id == cid then u else c).find?
        (fun c => c.id == cid) = some u
  | [], conv => by simp
  | x :: xs, conv => by
    intro hfind
    rw [List.map_cons]
    by_cases hx : (x.id == cid) = true
    · rw [if_pos hx]
      simp [List.find?, hu]
    · have hx' : (x.id == cid) = false := by simpa using hx
      rw [if_neg hx]
      simp only [List.find?, hx'] at hfind ⊢
      exact find?_map_upd cid u hu xs conv hfind

/-- C4 counterexample: auto-title is enabled, the active conversation still
has the placeholder title, and the first (and only) message is a user
message of content length 80 — yet `saveCurrentConversation` leaves the
title untouched, because the code additionally requires at least two
messages before deriving a title. -/
theorem saveCurrentConversation_autoTitle_counterexample :
    let msg : ChatMessage :=
      { id := "u1", role := .user,
        content := String.mk (List.replicate 80 'a'), timestamp := .date 1 }
    let conv : Conversation :=
      { id := "c1", title := "New Conversation", messages := [],
        createdAt := .date 0, updatedAt := .date 0 }
    let s : AIState :=
      { messages := [msg], conversations := [conv],
        currentConversationId := some "c1", currentPrompt := "",
        uploadedFiles := [], selectedModel := none,
        parameters := AIContext.defaultParameters,
        settings := { autoSave := true, autoTitle := true,
                      showTokenCount := true, enableSound := false },
        error := none, isLoading := false, isGenerating := false }
    s.settings.autoTitle = true ∧
      (s.conversations.map Conversation.title) = ["New Conversation"] ∧
      (s.messages.map fun m => (m.role, m.content.length)) = [(Role.user, 80)] ∧
      ((AIContext.saveCurrentConversation true 5 s emptyStore).1.conversations.map
        Conversation.title) = ["New Conversation"] ∧
      ¬("New Conversation" =
        (String.mk (List.replicate 80 'a')).take 50 ++ "...") := by
  decide

/-- C4 (amended): when auto-title is enabled, the active conversation still
has the placeholder title, **and at least two messages are present**,
`saveCurrentConversation` derives the saved title from the first user
message's leading 50 characters, appending `'...'` exactly when the content
is longer than 50 characters. -/
theorem saveCurrentConversation_autoTitle (enabled : Bool) (now : Date) (s : AIState)
    (st : LocalStore) (cid : String) (conversation firstUserMessage)
    (hcid : s.currentConversationId = some cid)
    (hfind : s.conversations.find? (fun c => c.id == cid) = some conversation)
    (hauto : s.settings.autoTitle = true)
    (htitle : conversation.title = "New Conversation")
    (h2 : 2 ≤ s.messages.length)
    (hfu : s.messages.find? (fun m => m.role == Role.user) = some firstUserMessage) :
    ∃ c', ((AIContext.saveCurrentConversation enabled now s st).1.conversations.find?
        (fun c => c.id == cid)) = some c' ∧
      c'.title = firstUserMessage.content.take 50 ++
        (if 50 < firstUserMessage.content.length then "..." else "") := by
  have hid : (conversation.id == cid) = true := by
    have := List.find?_some hfind
    simpa using this
  have hidu : ((AIContext.updatedConversationOf now s conversation).id == cid) = true := by
    have hpres : (AIContext.updatedConversationOf now s conversation).id =
        conversation.id := by
      unfold AIContext.updatedConversationOf
      split
      · split <;> rfl
      · rfl
    rw [hpres]
    exact hid
  have htitle' : (AIContext.updatedConversationOf now s conversation).title =
      firstUserMessage.content.take 50 ++
        (if 50 < firstUserMessage.content.length then "..." else "") := by
    unfold AIContext.updatedConversationOf
    rw [if_pos ⟨hauto, by simp [htitle], h2⟩, hfu]
  have hlen : ¬(s.messages.length = 0) := by omega
  simp only [AIContext.saveCurrentConversation, hcid, if_neg hlen, hfind]
  exact ⟨_, find?_map_upd cid _ hidu s.conversations conversation hfind, htitle'⟩

/-- C4 witness: with two messages whose first user message has content
length 80, the saved title is the leading 50 characters plus `'...'`. -/
theorem saveCurrentConversation_autoTitle_witness :
    ∃ c', ((AIContext.saveCurrentConversation true 7
        { messages :=
            [{ id := "u1", role := .user,
               content := String.mk (List.replicate 80 'b'), timestamp := .date 1 },
             { id := "a1", role := .assistant, content := "reply",
               timestamp := .date 2 }],
          conversations :=
            [{ id := "c1", title := "New Conversation", messages := [],
               createdAt := .date 0, updatedAt := .date 0 }],
          currentConversationId := some "c1", currentPrompt := "",
          uploadedFiles := [], selectedModel := none,
          parameters := AIContext.defaultParameters,
          settings := { autoSave := true, autoTitle := true,
                        showTokenCount := true, enableSound := false },
          error := none, isLoading := false, isGenerating := false }
        emptyStore).1.conversations.find? (fun c => c.id == "c1")) = some c' ∧
      c'.title = (String.mk (List.replicate 80 'b')).take 50 ++
        (if 50 < (String.mk (List.replicate 80 'b')).length then "..." else "") := by
  exact saveCurrentConversation_autoTitle true 7
    { messages :=
        [{ id := "u1", role := .user,
           content := String.mk (List.replicate 80 'b'), timestamp := .date 1 },
         { id := "a1", role := .assistant, content := "reply",
           timestamp := .date 2 }],
      conversations :=
        [{ id := "c1", title := "New Conversation", messages := [],
           createdAt := .date 0, updatedAt := .date 0 }],
      currentConversationId := some "c1", currentPrompt := "",
      uploadedFiles := [], selectedModel := none,
      parameters := AIContext.defaultParameters,
      settings := { autoSave := true, autoTitle := true,
                    showTokenCount := true, enableSound := false },
      error := none, isLoading := false, isGenerating := false }
    emptyStore "c1"
    { id := "c1", title := "New Conversation", messages := [],
      createdAt := .date 0, updatedAt := .date 0 }
    { id := "u1", role := .user,
      content := String.mk (List.replicate 80 'b'), timestamp := .date 1 }
    rfl rfl rfl rfl (by decide) rfl

theorem findLastIndex_eq_none (p : α → Bool) :
    ∀ (l : List α), AIContext.findLastIndex p l = none →
      ∀ (j : Nat) (hj : j < l.length), p (l.get ⟨j, hj⟩) = false
  | [], _, j, hj => absurd hj (by simp)
  | x :: xs, h, j, hj => by
    unfold AIContext.findLastIndex at h
    cases hxs : AIContext.findLastIndex p xs with
    | some i => rw [hxs] at h; exact absurd h (by simp)
    | none =>
      rw [hxs] at h
      by_cases hp : p x = true
      · rw [if_pos hp] at h; exact absurd h (by simp)
      · cases j with
        | zero => simpa using hp
        | succ j' =>
          exact findLastIndex_eq_none p xs hxs j' (Nat.lt_of_succ_lt_succ hj)

theorem findLastIndex_spec (p : α → Bool) :
    ∀ (l : List α) (i : Nat), AIContext.findLastIndex p l = some i →
      ∃ hlt : i < l.length, p (l.get ⟨i, hlt⟩) = true ∧
        ∀ (j : Nat) (hj : j < l.length), i < j → p (l.get ⟨j, hj⟩) = false
  | [], i, h => absurd h (by simp [AIContext.findLastIndex])
  | x :: xs, i, h => by
    unfold AIContext.findLastIndex at h
    cases hxs : AIContext.findLastIndex p xs with
    | some k =>
      rw [hxs] at h
      injection h with h
      subst h
      obtain ⟨hlt, hpk, hmax⟩ := findLastIndex_spec p xs k hxs
      refine ⟨Nat.succ_lt_succ hlt, hpk, ?_⟩
      intro j hj hkj
      cases j with
      | zero => omega
      | succ j' => exact hmax j' (Nat.lt_of_succ_lt_succ hj) (Nat.lt_of_succ_lt_succ hkj)
    | none =>
      rw [hxs] at h
      by_cases hp : p x = true
      · rw [if_pos hp] at h
        injection h with h
        subst h
        refine ⟨Nat.succ_pos _, hp, ?_⟩
        intro j hj h0j
        cases j with
        | zero => omega
        | succ j' => exact findLastIndex_eq_none p xs hxs j' (Nat.lt_of_succ_lt_succ hj)
      · rw [if_neg hp] at h
        exact absurd h (by simp)

theorem findLastIndex_isSome_of_any (p : α → Bool) :
    ∀ (l : List α), l.any p = true → ∃ i, AIContext.findLastIndex p l = some i
  | [], h => absurd h (by simp)
  | x :: xs, h => by
    unfold AIContext.findLastIndex
    cases hxs : AIContext.findLastIndex p xs with
    | some k => exact ⟨k + 1, rfl⟩
    | none =>
      by_cases hp : p x = true
      · exact ⟨0, by rw [if_pos hp]⟩
      · rw [List.any_cons, Bool.or_eq_true] at h
        rcases h with h | h
        · exact absurd h hp
        · obtain ⟨k, hk⟩ := findLastIndex_isSome_of_any p xs h
          rw [hk] at hxs
          exact absurd hxs (by simp)

/-- C2 counterexample: on a one-message conversation consisting of a single
assistant message, `regenerateLastMessage` is a no-op (the code first
requires at least two messages): the assistant message is not removed and
the gateway is never re-invoked, although at least one assistant message is
present. -/
theorem regenerateLastMessage_singleton_counterexample :
    let a : ChatMessage :=
      { id := "a1", role := .assistant, content := "old", timestamp := .date 1 }
    let s : AIState :=
      { messages := [a], conversations := [], currentConversationId := none,
        currentPrompt := "", uploadedFiles := [],
        selectedModel := some AIContext.gpt35Turbo,
        parameters := AIContext.defaultParameters,
        settings := { autoSave := true, autoTitle := true,
                      showTokenCount := true, enableSound := false },
        error := none, isLoading := false, isGenerating := false }
    (s.messages.any fun m => m.role == Role.assistant) = true ∧
      AIContext.regenerateLastMessage ⟨"a2", 9⟩ { success := true, content := "new" } s =
        (s, none) := by
  exact ⟨by decide, rfl⟩

/-- C2 (amended): on every message list with **at least two messages** and
at least one assistant message, `regenerateLastMessage` removes the most
recent assistant message (keeping every message before it), re-invokes the
gateway with the truncated history, appends exactly one new assistant
message on gateway success (so a user/assistant pair ends at count 2), and
leaves the history truncated on gateway failure. -/
theorem regenerateLastMessage_spec (fresh : AIContext.RegenFresh) (resp : AIResponse)
    (s : AIState) (h2 : 2 ≤ s.messages.length)
    (ha : (s.messages.any fun m => m.role == Role.assistant) = true) :
    ∃ i, AIContext.findLastIndex (fun m => m.role == Role.assistant) s.messages =
        some i ∧
      (∃ hlt : i < s.messages.length,
        (s.messages.get ⟨i, hlt⟩).role = .assistant ∧
          ∀ (j : Nat) (hj : j < s.messages.length), i < j →
            (s.messages.get ⟨j, hj⟩).role ≠ .assistant) ∧
      (AIContext.regenerateLastMessage fresh resp s).2 =
        some { messages := s.messages.take i, model := s.selectedModel,
               parameters := s.parameters } ∧
      (resp.success = true →
        (AIContext.regenerateLastMessage fresh resp s).1.messages =
          s.messages.take i ++
            [{ id := fresh.msgId, role := .assistant, content := resp.content,
               timestamp := .date fresh.msgTime,
               model := s.selectedModel.map AIModel.name,
               tokens := AIContext.usageToTokens resp.usage,
               files := if 0 < s.uploadedFiles.length then some s.uploadedFiles
                 else none }]) ∧
      (resp.success = false →
        (AIContext.regenerateLastMessage fresh resp s).1.messages =
          s.messages.take i) := by
  obtain ⟨i, hi⟩ :=
    findLastIndex_isSome_of_any (fun m => m.role == Role.assistant) s.messages ha
  obtain ⟨hlt, hp, hmax⟩ :=
    findLastIndex_spec (fun m => m.role == Role.assistant) s.messages i hi
  refine ⟨i, hi, ⟨hlt, by simpa using hp, ?_⟩, ?_, ?_, ?_⟩
  · intro j hj hij
    have := hmax j hj hij
    simpa using this
  · unfold AIContext.regenerateLastMessage
    rw [if_neg (by omega)]
    simp only [hi]
  · intro hs
    unfold AIContext.regenerateLastMessage
    rw [if_neg (by omega)]
    simp [hi, hs, AIContext.addMessage]
  · intro hs
    unfold AIContext.regenerateLastMessage
    rw [if_neg (by omega)]
    simp [hi, hs, AIContext.addMessage]

/-- C2 witness: on the two-message conversation user/assistant with a
successful gateway response, the assistant message is removed and exactly
one new assistant message is appended, leaving the count at 2. -/
theorem regenerateLastMessage_spec_witness :
    (2 ≤ ([{ id := "u1", role := Role.user, content := "hi",
             timestamp := TimeVal.date 1 },
           { id := "a1", role := Role.assistant, content := "old",
             timestamp := TimeVal.date 2 }] : List ChatMessage).length) ∧
      ∃ i, AIContext.findLastIndex (fun m => m.role == Role.assistant)
          ([{ id := "u1", role := Role.user, content := "hi",
              timestamp := TimeVal.date 1 },
            { id := "a1", role := Role.assistant, content := "old",
              timestamp := TimeVal.date 2 }] : List ChatMessage) = some i ∧ i = 1 := by
  refine ⟨by decide, ?_⟩
  have h := regenerateLastMessage_spec ⟨"a2", 9⟩ { success := true, content := "new" }
    { messages :=
        [{ id := "u1", role := Role.user, content := "hi",
           timestamp := TimeVal.date 1 },
         { id := "a1", role := Role.assistant, content := "old",
           timestamp := TimeVal.date 2 }],
      conversations := [], currentConversationId := some "c1",
      currentPrompt := "", uploadedFiles := [],
      selectedModel := some AIContext.gpt35Turbo,
      parameters := AIContext.defaultParameters,
      settings := { autoSave := true, autoTitle := true,
                    showTokenCount := true, enableSound := false },
      error := none, isLoading := false, isGenerating := false }
    (by decide) (by decide)
  obtain ⟨i, hi, _, _, _, _⟩ := h
  refine ⟨i, hi, ?_⟩
  have : AIContext.findLastIndex (fun m => m.role == Role.assistant)
      ([{ id := "u1", role := Role.user, content := "hi",
          timestamp := TimeVal.date 1 },
        { id := "a1", role := Role.assistant, content := "old",
          timestamp := TimeVal.date 2 }] : List ChatMessage) = some 1 := by decide
  rw [this] at hi
  injection hi with hi
  omega

/-- C10: when attachments are staged (and a model and an active conversation
exist), the user message `sendMessage` appends stores exactly the raw prompt
text as its content, with the attachments captured in its `files` field,
while the content handed to the Provider Gateway (the last message of the
outbound call) is the generated file-context block followed by the optional
`User Question:` suffix. -/
theorem sendMessage_stores_raw_prompt (fresh : AIContext.SendFresh) (resp : AIResponse)
    (s : AIState) (model : AIModel)
    (hm : s.selectedModel = some model)
    (hf : s.uploadedFiles ≠ [])
    (hcc : s.currentConversationId ≠ none) :
    ∃ gc, (AIContext.sendMessage fresh resp s).2 = some gc ∧
      (gc.messages.map ChatMessage.content).getLast? =
        some (FileService.generatePromptContext s.uploadedFiles ++
          (if ¬(s.currentPrompt == "") then "\n\nUser Question: " ++ s.currentPrompt
           else "")) ∧
      (AIContext.sendMessage fresh resp s).1.messages.get? s.messages.length =
        some { id := fresh.userMsgId, role := .user, content := s.currentPrompt,
               timestamp := .date fresh.userMsgTime, model := some model.name,
               tokens := none, files := some s.uploadedFiles } := by
  have hne : s.uploadedFiles.length ≠ 0 := fun h0 => hf (List.length_eq_zero.mp h0)
  have hpos : 0 < s.uploadedFiles.length := Nat.pos_of_ne_zero hne
  unfold AIContext.sendMessage
  rw [if_neg (fun hcond => hne hcond.2)]
  simp only [hm, if_pos hpos, if_neg hcc, AIContext.addMessage]
  refine ⟨_, rfl, ?_, ?_⟩
  · rw [List.map_append]
    simp
  · cases hrs : resp.success
    · simp only [hrs, Bool.false_eq_true, if_false, ite_false]
      exact List.get?_concat_length _ _
    · simp only [hrs, if_true, ite_true, if_pos hpos]
      rw [List.get?_append
        (by simp only [List.length_append, List.length_cons, List.length_nil]; omega)]
      exact List.get?_concat_length _ _

/-- C10 witness: a concrete send with one staged attachment and prompt
`"What?"` records the raw prompt in the stored user message while the
gateway receives the file-context-prepended content. -/
theorem sendMessage_stores_raw_prompt_witness :
    ∃ gc, (AIContext.sendMessage ⟨"u1", 1, "c9", 2, 3, "a1", 4⟩
        { success := true, content := "ok" }
        { messages := [], conversations := [],
          currentConversationId := some "c1", currentPrompt := "What?",
          uploadedFiles := [{ id := "f1", name := "notes.txt", type := "text/plain",
                                size := 5, content := "hello",
                                uploadedAt := TimeVal.date 0 }],
          selectedModel := some AIContext.gpt35Turbo,
          parameters := AIContext.defaultParameters,
          settings := { autoSave := true, autoTitle := true,
                        showTokenCount := true, enableSound := false },
          error := none, isLoading := false, isGenerating := false }).2 = some gc ∧
      (gc.messages.map ChatMessage.content).getLast? =
        some (FileService.generatePromptContext
            [{ id := "f1", name := "notes.txt", type := "text/plain",
               size := 5, content := "hello", uploadedAt := TimeVal.date 0 }] ++
          (if ¬(("What?" : String) == "") then "\n\nUser Question: " ++ "What?"
           else "")) ∧
      (AIContext.sendMessage ⟨"u1", 1, "c9", 2, 3, "a1", 4⟩
        { success := true, content := "ok" }
        { messages := [], conversations := [],
          currentConversationId := some "c1", currentPrompt := "What?",
          uploadedFiles := [{ id := "f1", name := "notes.txt", type := "text/plain",
                                size := 5, content := "hello",
                                uploadedAt := TimeVal.date 0 }],
          selectedModel := some AIContext.gpt35Turbo,
          parameters := AIContext.defaultParameters,
          settings := { autoSave := true, autoTitle := true,
                        showTokenCount := true, enableSound := false },
          error := none, isLoading := false, isGenerating := false }).1.messages.get?
          0 =
        some { id := "u1", role := .user, content := "What?",
               timestamp := .date 1, model := some AIContext.gpt35Turbo.name,
               tokens := none,
               files := some [{ id := "f1", name := "notes.txt",
                                type := "text/plain", size := 5, content := "hello",
                                uploadedAt := TimeVal.date 0 }] } := by
  exact sendMessage_stores_raw_prompt ⟨"u1", 1, "c9", 2, 3, "a1", 4⟩
    { success := true, content := "ok" }
    { messages := [], conversations := [],
      currentConversationId := some "c1", currentPrompt := "What?",
      uploadedFiles := [{ id := "f1", name := "notes.txt", type := "text/plain",
                            size := 5, content := "hello",
                            uploadedAt := TimeVal.date 0 }],
      selectedModel := some AIContext.gpt35Turbo,
      parameters := AIContext.defaultParameters,
      settings := { autoSave := true, autoTitle := true,
                    showTokenCount := true, enableSound := false },
      error := none, isLoading := false, isGenerating := false }
    AIContext.gpt35Turbo rfl (by decide) (by decide)

@[simp] theorem serializeConversation_id (c : Conversation) :
    (StorageService.serializeConversation c).id = c.id := rfl

@[simp] theorem reviveConversation_id (c : Conversation) :
    (StorageService.reviveConversation c).id = c.id := rfl

theorem find?_saveList (i : String) (d : Conversation) :
    ∀ (M : List Conversation),
      ((StorageService.upsertFirst d M).getD (d :: M)).find? (fun x => x.id == i) =
        if (d.id == i) = true then some d else M.find? (fun x => x.id == i)
  | [] => by
    cases hdi : (d.id == i) <;> simp [StorageService.upsertFirst, List.find?, hdi]
  | x :: xs => by
    by_cases hx : (x.id == d.id) = true
    · have hxd : x.id = d.id := by simpa using hx
      simp only [StorageService.upsertFirst, hx, if_true, ite_true, Option.getD_some]
      cases hdi : (d.id == i)
      · have hxi : (x.id == i) = false := by rw [hxd]; exact hdi
        simp [List.find?, hdi, hxi]
      · simp [List.find?, hdi]
    · have hxd : (x.id == d.id) = false := by simpa using hx
      simp only [StorageService.upsertFirst, hxd, Bool.false_eq_true, if_false, ite_false]
      cases hUp : StorageService.upsertFirst d xs with
      | some M2 =>
        have IH := find?_saveList i d xs
        rw [hUp, Option.getD_some] at IH
        cases hxi : (x.id == i)
        · simp [List.find?, hxi, IH]
        · have hxi' : x.id = i := by simpa using hxi
          have hdi : (d.id == i) = false := by
            apply beq_eq_false_iff_ne.mpr
            intro hde
            exact (beq_eq_false_iff_ne.mp hxd) (by rw [hxi', hde])
          simp [List.find?, hxi, hdi]
      | none =>
        cases hdi : (d.id == i) <;> cases hxi : (x.id == i) <;>
          simp [List.find?, hdi, hxi]

theorem find?_map_rev_ser (i : String) :
    ∀ (l : List Conversation),
      ((l.map fun x => StorageService.reviveConversation
          (StorageService.serializeConversation x)).find? (fun x => x.id == i)) =
        (l.find? (fun x => x.id == i)).map
          (fun x => StorageService.reviveConversation (StorageService.serializeConversation x))
  | [] => rfl
  | x :: xs => by
    cases hxi : (x.id == i) <;>
      simp [List.find?, hxi, find?_map_rev_ser i xs]

theorem msgSig_revive_serialize_serialize (m : ChatMessage) :
    msgSig (StorageService.reviveMessage (StorageService.serializeMessage
      (StorageService.serializeMessage m))) = msgSig m := by
  unfold msgSig StorageService.reviveMessage StorageService.serializeMessage
  cases ht : m.timestamp <;>
    simp [TimeVal.serialize, TimeVal.newDate, TimeVal.millisOf]

theorem getConversation_save_self (now : Date) (d : Conversation) (st : LocalStore)
    (i : String) (hdi : (d.id == i) = true) :
    StorageService.getConversation true (StorageService.saveConversation true now d st) i =
      some (StorageService.reviveConversation (StorageService.serializeConversation
        { d with updatedAt := TimeVal.date now })) := by
  unfold StorageService.getConversation StorageService.saveConversation
  simp only [StorageService.getConversations]
  simp only [not_true, ite_false, if_false]
  rw [List.map_map]
  rw [show (StorageService.reviveConversation ∘ StorageService.serializeConversation) =
      (fun x => StorageService.reviveConversation (StorageService.serializeConversation x))
    from rfl]
  rw [find?_map_rev_ser, find?_saveList]
  split
  · rfl
  · next hfalse => exact absurd hdi hfalse

/-- C6: exporting a stored Conversation to JSON (`exportConversation` with
the `json` format) and re-importing that JSON (`importConversations`)
reproduces the same sequence of Messages — same role, same content, and the
same timestamp instants — ignoring identifier regeneration (the conversation
id must be non-empty, or import would regenerate it). -/
theorem export_import_roundtrip (enabled : Bool) (st : LocalStore) (id : String)
    (c : Conversation) (now : Date) (genId : String)
    (hid : id ≠ "")
    (hc : StorageService.getConversation enabled st id = some c) :
    ∃ ex, StorageService.exportConversationJson enabled st id = some ex ∧
      ((StorageService.getConversation enabled
          (StorageService.importConversations enabled now genId [ex] st) id).map
        (fun c2 => c2.messages.map msgSig)) = some (c.messages.map msgSig) := by
  have hen : enabled = true := by
    cases enabled
    · simp [StorageService.getConversation, StorageService.getConversations] at hc
    · rfl
  subst hen
  have hcid : c.id = id := by
    have := List.find?_some hc
    simpa using this
  refine ⟨StorageService.serializeConversation c, ?_, ?_⟩
  · unfold StorageService.exportConversationJson
    rw [hc]
    rfl
  · have hdi2 : ((StorageService.importConv genId
        (StorageService.serializeConversation c)).id == id) = true := by
      simp [StorageService.importConv, hcid, hid]
    unfold StorageService.importConversations
    rw [List.foldl_cons, List.foldl_nil]
    rw [getConversation_save_self now _ st id hdi2]
    apply congrArg some
    simp only [StorageService.reviveConversation, StorageService.serializeConversation,
      StorageService.importConv, List.map_map]
    refine List.map_congr_left ?_
    intro m _
    simp only [Function.comp_apply]
    exact msgSig_revive_serialize_serialize m

/-- C6 witness: a concrete stored conversation with one user message
survives the export/import round-trip with role, content and timestamp
instant intact. -/
theorem export_import_roundtrip_witness :
    ∃ ex, StorageService.exportConversationJson true
        { conversations := some
            [{ id := "c1", title := "T",
               messages := [{ id := "m1", role := Role.user, content := "hi",
                              timestamp := TimeVal.str ⟨100⟩ }],
               createdAt := TimeVal.str ⟨50⟩, updatedAt := TimeVal.str ⟨60⟩ }] }
        "c1" = some ex ∧
      ((StorageService.getConversation true
          (StorageService.importConversations true 900 "gen"
            [ex]
            { conversations := some
                [{ id := "c1", title := "T",
                   messages := [{ id := "m1", role := Role.user, content := "hi",
                                  timestamp := TimeVal.str ⟨100⟩ }],
                   createdAt := TimeVal.str ⟨50⟩, updatedAt := TimeVal.str ⟨60⟩ }] })
          "c1").map (fun c2 => c2.messages.map msgSig)) =
        some ((StorageService.reviveConversation
          { id := "c1", title := "T",
            messages := [{ id := "m1", role := Role.user, content := "hi",
                           timestamp := TimeVal.str ⟨100⟩ }],
            createdAt := TimeVal.str ⟨50⟩,
            updatedAt := TimeVal.str ⟨60⟩ }).messages.map msgSig) := by
  exact export_import_roundtrip true
    { conversations := some
        [{ id := "c1", title := "T",
           messages := [{ id := "m1", role := Role.user, content := "hi",
                          timestamp := TimeVal.str ⟨100⟩ }],
           createdAt := TimeVal.str ⟨50⟩, updatedAt := TimeVal.str ⟨60⟩ }] }
    "c1"
    (StorageService.reviveConversation
      { id := "c1", title := "T",
        messages := [{ id := "m1", role := Role.user, content := "hi",
                       timestamp := TimeVal.str ⟨100⟩ }],
        createdAt := TimeVal.str ⟨50⟩, updatedAt := TimeVal.str ⟨60⟩ })
    900 "gen" (by decide) rfl

/-- C9: batch ingestion is total and processes files independently — its
result is exactly the per-file successes of `processFile`, kept in input
order (failed files are skipped, never aborting the batch). -/
theorem processMultipleFiles_independent (cfg : FileService.FileConfig)
    (fresh : Nat → FileService.FileFresh) (files : List FileService.UploadFile) :
    FileService.processMultipleFiles cfg fresh files =
      files.enum.filterMap
        (fun p => (FileService.processFile cfg (fresh p.1) p.2).toOption) := by
  exact processMultipleFilesFrom_eq_filterMap cfg fresh files 0

theorem mem_saveList (d : Conversation) :
    ∀ (M : List Conversation) (y : Conversation),
      y ∈ (StorageService.upsertFirst d M).getD (d :: M) → y = d ∨ y ∈ M
  | [], y, h => by
    simp [StorageService.upsertFirst] at h
    exact Or.inl h
  | x :: xs, y, h => by
    by_cases hx : (x.id == d.id) = true
    · simp only [StorageService.upsertFirst, hx, if_true, ite_true, Option.getD_some] at h
      rcases List.mem_cons.mp h with h | h
      · exact Or.inl h
      · exact Or.inr (List.mem_cons_of_mem _ h)
    · have hxd : (x.id == d.id) = false := by simpa using hx
      have IH := mem_saveList d xs y
      cases hUp : StorageService.upsertFirst d xs with
      | some M2 =>
        rw [hUp, Option.getD_some] at IH
        simp only [StorageService.upsertFirst, hxd, Bool.false_eq_true, if_false,
          ite_false, hUp] at h
        simp at h
        rcases h with h | h
        · exact Or.inr (by rw [h]; exact List.mem_cons_self x xs)
        · rcases IH h with h2 | h2
          · exact Or.inl h2
          · exact Or.inr (List.mem_cons_of_mem _ h2)
      | none =>
        simp only [StorageService.upsertFirst, hxd, Bool.false_eq_true, if_false,
          ite_false, hUp] at h
        simp at h
        rcases h with h | h | h
        · exact Or.inl h
        · exact Or.inr (by rw [h]; exact List.mem_cons_self x xs)
        · exact Or.inr (List.mem_cons_of_mem _ h)

theorem getConversations_saveConversation (t : Date) (d : Conversation) (st : LocalStore) :
    StorageService.getConversations true (StorageService.saveConversation true t d st) =
      ((StorageService.upsertFirst { d with updatedAt := TimeVal.date t }
          (StorageService.getConversations true st)).getD
        ({ d with updatedAt := TimeVal.date t } :: StorageService.getConversations true st)).map
        (fun x => StorageService.reviveConversation (StorageService.serializeConversation x)) := by
  unfold StorageService.saveConversation
  simp only [StorageService.getConversations]
  simp only [not_true, ite_false, if_false]
  rw [List.map_map]
  rfl

theorem millis_rev_ser (x : Conversation) :
    (StorageService.reviveConversation
      (StorageService.serializeConversation x)).updatedAt.millisOf =
      x.updatedAt.millisOf := by
  simp [StorageService.reviveConversation, StorageService.serializeConversation,
    TimeVal.millisOf]

theorem storeBound_saveConversation (t T : Nat) (htT : t ≤ T) (d : Conversation)
    (st : LocalStore) (hb : storeBound true st T) :
    storeBound true (StorageService.saveConversation true t d st) T := by
  intro y hy
  rw [getConversations_saveConversation] at hy
  rcases List.mem_map.mp hy with ⟨z, hz, rfl⟩
  rw [millis_rev_ser]
  rcases mem_saveList _ _ z hz with rfl | hz2
  · simpa [TimeVal.millisOf] using htT
  · exact hb z hz2

theorem storeBound_emptyStore (enabled : Bool) (T : Nat) :
    storeBound enabled emptyStore T := by
  intro c hc
  cases enabled <;> simp [StorageService.getConversations, emptyStore] at hc

theorem storeBound_applyOp (enabled : Bool) (t T : Nat) (op : StoreOp) (st : LocalStore)
    (htT : t ≤ T) (hb : storeBound enabled st T) :
    storeBound enabled (applyOp enabled t op st) T := by
  cases enabled
  · cases op with
    | save c =>
      simpa [applyOp, StorageService.saveConversation] using hb
    | rename rid title =>
      simpa [applyOp, StorageService.getConversations, List.find?] using hb
  · cases op with
    | save c => exact storeBound_saveConversation t T htT c st hb
    | rename rid title =>
      simp only [applyOp]
      cases hfind : (StorageService.getConversations true st).find?
          (fun c => c.id == rid) with
      | none => simpa [hfind] using hb
      | some c0 =>
        exact storeBound_saveConversation t T htT _ st hb

theorem storeBound_runOps (enabled : Bool) :
    ∀ (ops : List (Date × StoreOp)) (st : LocalStore) (T : Nat),
      (∀ p ∈ ops, p.1 ≤ T) → storeBound enabled st T →
      storeBound enabled (runOps enabled ops st) T
  | [], _, _, _, hb => hb
  | (t, op) :: rest, st, T, hall, hb => by
    have ht : t ≤ T := hall (t, op) (List.mem_cons_self _ _)
    exact storeBound_runOps enabled rest _ T
      (fun p hp => hall p (List.mem_cons_of_mem _ hp))
      (storeBound_applyOp enabled t T op st ht hb)

theorem runOps_append (enabled : Bool) :
    ∀ (l1 l2 : List (Date × StoreOp)) (st : LocalStore),
      runOps enabled (l1 ++ l2) st = runOps enabled l2 (runOps enabled l1 st)
  | [], _, _ => rfl
  | (t, op) :: rest, l2, st => by
    simp only [List.cons_append, runOps]
    exact runOps_append enabled rest l2 _

theorem getConversation_saveConversation_ite (t : Date) (d : Conversation)
    (st : LocalStore) (id : String) :
    StorageService.getConversation true (StorageService.saveConversation true t d st) id =
      if (d.id == id) = true
      then some (StorageService.reviveConversation (StorageService.serializeConversation
        { d with updatedAt := TimeVal.date t }))
      else ((StorageService.getConversations true st).find? (fun x => x.id == id)).map
        (fun x => StorageService.reviveConversation (StorageService.serializeConversation x)) := by
  unfold StorageService.getConversation StorageService.saveConversation
  simp only [StorageService.getConversations]
  simp only [not_true, ite_false, if_false]
  rw [List.map_map]
  rw [show (StorageService.reviveConversation ∘ StorageService.serializeConversation) =
      (fun x => StorageService.reviveConversation (StorageService.serializeConversation x))
    from rfl]
  rw [find?_map_rev_ser, find?_saveList]
  split <;> rfl

theorem updatedAtOf_saveConversation (t : Date) (d : Conversation) (st : LocalStore)
    (id : String) :
    updatedAtOf true (StorageService.saveConversation true t d st) id =
      if (d.id == id) = true then some t else updatedAtOf true st id := by
  unfold updatedAtOf
  rw [getConversation_saveConversation_ite]
  split
  · simp [StorageService.reviveConversation, StorageService.serializeConversation,
      TimeVal.millisOf]
  · unfold StorageService.getConversation
    cases hM : (StorageService.getConversations true st).find? (fun x => x.id == id) with
    | none => simp [hM]
    | some c0 => simp [hM, millis_rev_ser]

theorem updatedAtOf_applyOp_mono (enabled : Bool) (t : Nat) (op : StoreOp)
    (st : LocalStore) (id : String) (u v : Nat)
    (hb : storeBound enabled st t)
    (hu : updatedAtOf enabled st id = some u)
    (hv : updatedAtOf enabled (applyOp enabled t op st) id = some v) :
    u ≤ v := by
  cases enabled
  · exfalso
    simp [updatedAtOf, StorageService.getConversation,
      StorageService.getConversations] at hu
  · have hut : u ≤ t := by
      unfold updatedAtOf StorageService.getConversation at hu
      cases hfind : (StorageService.getConversations true st).find?
          (fun c => c.id == id) with
      | none => rw [hfind] at hu; simp at hu
      | some cu =>
        rw [hfind] at hu
        simp only [Option.map] at hu
        injection hu with hu
        have hmem := List.mem_of_find?_eq_some hfind
        have := hb cu hmem
        omega
    cases op with
    | save d =>
      rw [show applyOp true t (StoreOp.save d) st =
          StorageService.saveConversation true t d st from rfl] at hv
      rw [updatedAtOf_saveConversation] at hv
      split at hv
      · injection hv with hv; omega
      · rw [hu] at hv; injection hv with hv; omega
    | rename rid title =>
      simp only [applyOp] at hv
      cases hfind : (StorageService.getConversations true st).find?
          (fun c => c.id == rid) with
      | none =>
        rw [hfind] at hv
        rw [hu] at hv
        injection hv with hv
        omega
      | some c0 =>
        rw [hfind] at hv
        rw [updatedAtOf_saveConversation] at hv
        split at hv
        · injection hv with hv; omega
        · rw [hu] at hv; injection hv with hv; omega

/-- C7: along every timestamped trace of store operations (saves — including
the auto-save path — and renames) whose clock values are non-decreasing, no
operation ever sets a conversation's `updatedAt` to a value earlier than its
previous value: every save restamps the touched record with the current
clock and leaves every other record's `updatedAt` unchanged. -/
theorem conversation_updatedAt_monotone (enabled : Bool)
    (pre : List (Date × StoreOp)) (t : Date) (op : StoreOp)
    (post : List (Date × StoreOp))
    (hchain : (((pre ++ (t, op) :: post).map Prod.fst).Chain' (· ≤ ·)))
    (id : String) (u v : Nat)
    (hu : updatedAtOf enabled (runOps enabled pre emptyStore) id = some u)
    (hv : updatedAtOf enabled (runOps enabled (pre ++ [(t, op)]) emptyStore) id = some v) :
    u ≤ v := by
  have hpair : List.Pairwise (· ≤ ·) ((pre ++ (t, op) :: post).map Prod.fst) :=
    List.chain'_iff_pairwise.mp hchain
  rw [List.map_append] at hpair
  have hsplit := (List.pairwise_append.mp hpair).2.2
  have hall : ∀ p ∈ pre, p.1 ≤ t := by
    intro p hp
    exact hsplit p.1 (List.mem_map_of_mem _ hp) t (by simp)
  have hbound := storeBound_runOps enabled pre emptyStore t hall
    (storeBound_emptyStore enabled t)
  rw [runOps_append] at hv
  exact updatedAtOf_applyOp_mono enabled t op _ id u v hbound hu hv

/-- C7 witness: saving a conversation at clock 5 and renaming it at clock 7
moves its `updatedAt` from 5 up to 7. -/
theorem conversation_updatedAt_monotone_witness :
    updatedAtOf true (runOps true
        [(5, StoreOp.save { id := "c1", title := "A", messages := [],
                            createdAt := TimeVal.date 1,
                            updatedAt := TimeVal.date 1 })]
        emptyStore) "c1" = some 5 ∧
      updatedAtOf true (runOps true
          ([(5, StoreOp.save { id := "c1", title := "A", messages := [],
                               createdAt := TimeVal.date 1,
                               updatedAt := TimeVal.date 1 })] ++
            [(7, StoreOp.rename "c1" "B")])
          emptyStore) "c1" = some 7 ∧
      (5 : Nat) ≤ 7 := by
  refine ⟨by decide, by decide, ?_⟩
  exact conversation_updatedAt_monotone true
    [(5, StoreOp.save { id := "c1", title := "A", messages := [],
                        createdAt := TimeVal.date 1,
                        updatedAt := TimeVal.date 1 })]
    7 (StoreOp.rename "c1" "B") []
    (List.chain'_cons.mpr ⟨by norm_num, List.chain'_singleton _⟩)
    "c1" 5 7 (by decide) (by decide)
